import Mathlib

/-!
Verification development for a read-only analytics dashboard
(`streamlit_app.py`).  The program builds SQL SELECT text from user
filters, routes it through a TTL-cached query helper backed by a
SELECT-only gateway, post-processes the rows, and renders insight-pack
JSON files.

Strings are embedded as `List Char` (named `Chars` below); Python string
concatenation and `str.join` become list append and an explicit join.
Numeric columns of the catalog table are embedded as `ℚ`.
-/

abbrev Chars := List Char

/-- The single-quote character, written via its code point. -/
def quoteChar : Char := Char.ofNat 39

/-- The semicolon character (SQL statement separator). -/
def semiChar : Char := Char.ofNat 59

/-- Embedding of Python `val.replace(single-quote, two single-quotes)`:
every embedded quote character is doubled, all other characters kept. -/
def pyReplaceQuote : Chars → Chars
  | [] => []
  | c :: r => (if c = quoteChar then [quoteChar, quoteChar] else [c]) ++ pyReplaceQuote r

/-- Embedding of `sql_quote` (streamlit_app.py lines 31-33): wrap in single
quotes and escape internal single quotes by doubling. -/
def sql_quote (v : Chars) : Chars := quoteChar :: (pyReplaceQuote v ++ [quoteChar])

/-- Scanner state for reading the interior of a SQL single-quoted string
literal: either plainly inside the literal, or having just read a quote
character (which closes the literal unless immediately followed by a
second quote, the escape for an embedded quote). -/
inductive LitState where
  | inside
  | afterQuote
deriving DecidableEq

/-- Modelled from the spec: the target query language's string-literal
rules.  Reads the part of a single-quoted literal after its opening
quote; a doubled quote character denotes one embedded quote, a single
quote character closes the literal, which must end the input.  Returns
the denoted string, or `none` if the text is not exactly one literal. -/
def parseLitAux : LitState → Chars → Option Chars
  | .inside, [] => none
  | .inside, c :: r =>
      if c = quoteChar then parseLitAux .afterQuote r
      else (parseLitAux .inside r).map (fun t => c :: t)
  | .afterQuote, [] => some []
  | .afterQuote, c :: r =>
      if c = quoteChar then (parseLitAux .inside r).map (fun t => quoteChar :: t)
      else none

/-- Modelled from the spec: parse one complete SQL single-quoted string
literal back to the string value it denotes. -/
def parseStringLiteral : Chars → Option Chars
  | [] => none
  | c :: r => if c = quoteChar then parseLitAux .inside r else none

/-- Decimal digit character for a value below ten. -/
def dChar (n : Nat) : Char := Char.ofNat (48 + n)

/-- Fuel-driven decimal rendering of a natural number (most significant
digit first); the fuel bounds the number of digits. -/
def renderNatAux : Nat → Nat → Chars
  | 0, _ => []
  | fuel + 1, n => if n < 10 then [dChar n] else renderNatAux fuel (n / 10) ++ [dChar (n % 10)]

/-- Decimal rendering of a natural number, as Python renders an `int`. -/
def renderNat (n : Nat) : Chars := renderNatAux (n + 1) n

/-- Rendering of the rating threshold.  The slider yields a multiple of
0.1 in 0.0-5.0; it is embedded as a count of tenths, and rendered the
way Python renders such a float: integer part, a dot, one tenths digit. -/
def renderRating (tenths : Nat) : Chars :=
  renderNat (tenths / 10) ++ ('.' :: renderNat (tenths % 10))

/-- The catalog table name (streamlit_app.py line 11). -/
def SCHEMA_TABLE : Chars := "trent.products".toList

/-- Embedding of the Python `",".join(sql_quote(b) for b in brand_sel)`
(streamlit_app.py line 46). -/
def brand_csv : List Chars → Chars
  | [] => []
  | [b] => sql_quote b
  | b :: bs => sql_quote b ++ (',' :: brand_csv bs)

/-- Embedding of the `where_clauses` list (streamlit_app.py lines 44-51):
a tautology, then a brand-membership clause when brands are selected,
then lower-bound clauses when the thresholds are positive. -/
def where_clauses (brand_sel : List Chars) (min_disc : Nat) (min_rating : Nat) : List Chars :=
  ["1=1".toList]
    ++ (if brand_sel = [] then []
        else ["brand IN (".toList ++ (brand_csv brand_sel ++ ")".toList)])
    ++ (if 0 < min_disc then ["discount_percent >= ".toList ++ renderNat min_disc] else [])
    ++ (if 0 < min_rating then ["rating >= ".toList ++ renderRating min_rating] else [])

/-- Embedding of Python `sep.join(parts)`. -/
def joinSep (sep : Chars) : List Chars → Chars
  | [] => []
  | [c] => c
  | c :: cs => c ++ (sep ++ joinSep sep cs)

/-- Embedding of `where_sql = " AND ".join(where_clauses)`
(streamlit_app.py line 53). -/
def where_sql (brand_sel : List Chars) (min_disc : Nat) (min_rating : Nat) : Chars :=
  joinSep " AND ".toList (where_clauses brand_sel min_disc min_rating)

/-- A fixed single-quoted SQL literal appearing verbatim in a query
template (such as the band labels). -/
def sqlLit (s : String) : Chars := quoteChar :: (s.toList ++ [quoteChar])

/-- The distinct-brands query (streamlit_app.py line 36). -/
def brands_sql : Chars :=
  "SELECT DISTINCT brand FROM ".toList ++ (SCHEMA_TABLE ++ " ORDER BY 1".toList)

/-- The KPI-summary query (streamlit_app.py lines 56-65). -/
def kpi_sql (brand_sel : List Chars) (min_disc : Nat) (min_rating : Nat) : Chars :=
  "\n    SELECT\n      COUNT(*) AS products,\n      ROUND(AVG(price),2) AS avg_price,\n      ROUND(AVG(mrp),2) AS avg_mrp,\n      ROUND(AVG(discount_percent),2) AS avg_discount_pct,\n      SUM(CASE WHEN price = mrp THEN 1 ELSE 0 END) AS no_discount_items\n    FROM ".toList
    ++ (SCHEMA_TABLE ++ ("\n    WHERE ".toList
    ++ (where_sql brand_sel min_disc min_rating ++ "\n".toList)))

/-- The discount-bands query (streamlit_app.py lines 79-94). -/
def bands_sql (brand_sel : List Chars) (min_disc : Nat) (min_rating : Nat) : Chars :=
  "\n    SELECT band, COUNT(*) AS items\n    FROM (\n      SELECT CASE\n        WHEN discount_percent = 0 THEN ".toList
    ++ (sqlLit "0%"
    ++ ("\n        WHEN discount_percent < 20 THEN ".toList
    ++ (sqlLit "0-20%"
    ++ ("\n        WHEN discount_percent < 40 THEN ".toList
    ++ (sqlLit "20-40%"
    ++ ("\n        WHEN discount_percent < 60 THEN ".toList
    ++ (sqlLit "40-60%"
    ++ ("\n        ELSE ".toList
    ++ (sqlLit "60%+"
    ++ ("\n      END AS band\n      FROM ".toList
    ++ (SCHEMA_TABLE ++ ("\n      WHERE ".toList
    ++ (where_sql brand_sel min_disc min_rating
    ++ "\n    ) b\n    GROUP BY band\n    ORDER BY items DESC\n".toList)))))))))))))

/-- The price-bucket distribution query (streamlit_app.py lines 102-116). -/
def price_buckets_sql (brand_sel : List Chars) (min_disc : Nat) (min_rating : Nat) : Chars :=
  "\n    SELECT CASE\n      WHEN price < 500 THEN ".toList
    ++ (sqlLit "<500"
    ++ ("\n      WHEN price < 1000 THEN ".toList
    ++ (sqlLit "500-999"
    ++ ("\n      WHEN price < 2000 THEN ".toList
    ++ (sqlLit "1000-1999"
    ++ ("\n      WHEN price < 5000 THEN ".toList
    ++ (sqlLit "2000-4999"
    ++ ("\n      ELSE ".toList
    ++ (sqlLit "5000+"
    ++ ("\n    END AS price_bucket,\n    COUNT(*) AS items,\n    ROUND(AVG(discount_percent),2) AS avg_discount_pct\n    FROM ".toList
    ++ (SCHEMA_TABLE ++ ("\n    WHERE ".toList
    ++ (where_sql brand_sel min_disc min_rating
    ++ "\n    GROUP BY price_bucket\n    ORDER BY items DESC\n".toList)))))))))))))

/-- The top-discounted query (streamlit_app.py lines 133-139). -/
def top_discounted_sql (brand_sel : List Chars) (min_disc : Nat) (min_rating : Nat) : Chars :=
  "\n    SELECT product_id, title, brand, price, mrp, discount_percent, rating, rating_total\n    FROM ".toList
    ++ (SCHEMA_TABLE ++ ("\n    WHERE ".toList
    ++ (where_sql brand_sel min_disc min_rating
    ++ "\n    ORDER BY discount_percent DESC, price ASC\n    LIMIT 50\n".toList)))

/-- The top-rated query (streamlit_app.py lines 140-146). -/
def top_rated_sql (brand_sel : List Chars) (min_disc : Nat) (min_rating : Nat) : Chars :=
  "\n    SELECT product_id, title, brand, rating, rating_total, price, mrp, discount_percent\n    FROM ".toList
    ++ (SCHEMA_TABLE ++ ("\n    WHERE ".toList
    ++ (where_sql brand_sel min_disc min_rating
    ++ " AND rating_total >= 100 AND rating >= 4\n    ORDER BY rating DESC, rating_total DESC\n    LIMIT 50\n".toList)))

/-- Scanner state for removing single-quoted literals from SQL text:
outside any literal, inside a literal, or just after a quote character
read while inside a literal. -/
inductive ScanState where
  | outside
  | inside
  | afterQuote
deriving DecidableEq

/-- Remove every single-quoted string literal (with quote-doubling
escapes) from SQL text, keeping all text outside literals.  Returns
`none` when a literal is left unterminated. -/
def stripAux : ScanState → Chars → Option Chars
  | .outside, [] => some []
  | .outside, c :: r =>
      if c = quoteChar then stripAux .inside r
      else (stripAux .outside r).map (fun t => c :: t)
  | .inside, [] => none
  | .inside, c :: r =>
      if c = quoteChar then stripAux .afterQuote r else stripAux .inside r
  | .afterQuote, [] => some []
  | .afterQuote, c :: r =>
      if c = quoteChar then stripAux .inside r
      else (stripAux .outside r).map (fun t => c :: t)

/-- The SQL text outside string literals, or `none` when a literal is
unbalanced. -/
def stripLits (s : Chars) : Option Chars := stripAux ScanState.outside s

/-- Whitespace as it occurs in the query templates. -/
def isWs (c : Char) : Bool := c = ' ' || c = '\n' || c = '\t' || c = '\r'

/-- A SQL text is a single SELECT statement when its string literals are
balanced, no statement separator occurs outside a literal (so it is one
statement), and the first token outside literals is SELECT (so that one
statement's kind is a read). -/
def isSelectStmt (s : Chars) : Bool :=
  match stripLits s with
  | none => false
  | some t =>
      decide ((t.dropWhile isWs).take 6 = "SELECT".toList) && decide (semiChar ∉ t)

/-- A text whose first character, if any, is not a quote character. -/
def HeadNotQuote (s : Chars) : Prop := s.head? ≠ some quoteChar

instance (s : Chars) : Decidable (HeadNotQuote s) := by
  unfold HeadNotQuote; infer_instance

/-- SQL text whose literals are balanced and whose text outside literals
is free of statement separators. -/
def TailSafe (s : Chars) : Prop :=
  ∃ t, stripAux ScanState.outside s = some t ∧ semiChar ∉ t

/-- A WHERE-clause fragment that keeps any following SQL text
statement-safe: prepending it preserves `TailSafe`, it never starts with
a quote, and it is nonempty. -/
def ClauseSafe (c : Chars) : Prop :=
  (∀ ys, HeadNotQuote ys → TailSafe ys → TailSafe (c ++ ys)) ∧ HeadNotQuote c ∧ c ≠ []

/-- A catalog product row (spec section 3). -/
structure Row where
  product_id : Nat
  title : Chars
  brand : Chars
  price : ℚ
  mrp : ℚ
  discount_percent : ℚ
  rating : ℚ
  rating_total : Nat
deriving DecidableEq

/-- The ORDER BY key of the top-discounted query: discount percent
descending, ties broken by price ascending. -/
def discOrd : Row → Row → Prop := fun a b =>
  b.discount_percent < a.discount_percent ∨
    (a.discount_percent = b.discount_percent ∧ a.price ≤ b.price)

instance : DecidableRel discOrd := fun a b => by
  unfold discOrd; infer_instance

instance : IsTotal Row discOrd := by
  constructor; intro a b
  rcases lt_trichotomy a.discount_percent b.discount_percent with h | h | h
  · exact Or.inr (Or.inl h)
  · rcases le_total a.price b.price with hp | hp
    · exact Or.inl (Or.inr ⟨h, hp⟩)
    · exact Or.inr (Or.inr ⟨h.symm, hp⟩)
  · exact Or.inl (Or.inl h)

instance : IsTrans Row discOrd := by
  constructor; intro a b c hab hbc
  rcases hab with h1 | ⟨h1, hp1⟩ <;> rcases hbc with h2 | ⟨h2, hp2⟩
  · exact Or.inl (h2.trans h1)
  · exact Or.inl (h2 ▸ h1)
  · exact Or.inl (h1 ▸ h2)
  · exact Or.inr ⟨h1.trans h2, hp1.trans hp2⟩

/-- The ORDER BY key of the top-rated query: rating descending, ties
broken by rating count descending. -/
def ratedOrd : Row → Row → Prop := fun a b =>
  b.rating < a.rating ∨ (a.rating = b.rating ∧ b.rating_total ≤ a.rating_total)

instance : DecidableRel ratedOrd := fun a b => by
  unfold ratedOrd; infer_instance

instance : IsTotal Row ratedOrd := by
  constructor; intro a b
  rcases lt_trichotomy a.rating b.rating with h | h | h
  · exact Or.inr (Or.inl h)
  · rcases le_total a.rating_total b.rating_total with hp | hp
    · exact Or.inr (Or.inr ⟨h.symm, hp⟩)
    · exact Or.inl (Or.inr ⟨h, hp⟩)
  · exact Or.inl (Or.inl h)

instance : IsTrans Row ratedOrd := by
  constructor; intro a b c hab hbc
  rcases hab with h1 | ⟨h1, hp1⟩ <;> rcases hbc with h2 | ⟨h2, hp2⟩
  · exact Or.inl (h2.trans h1)
  · exact Or.inl (h2 ▸ h1)
  · exact Or.inl (h1 ▸ h2)
  · exact Or.inr ⟨h1.trans h2, hp2.trans hp1⟩

/-- Relational semantics of the top-discounted query (streamlit_app.py
lines 133-139): the predicate-matching rows sorted by discount percent
descending with ties broken by price ascending, truncated to 50 rows. -/
def top_discounted (tbl : List Row) (p : Row → Bool) : List Row :=
  ((tbl.filter p).insertionSort discOrd).take 50

/-- Relational semantics of the top-rated query (streamlit_app.py lines
140-146): predicate-matching rows with at least 100 ratings and rating
at least 4, sorted by rating descending with ties broken by rating count
descending, truncated to 50 rows. -/
def top_rated (tbl : List Row) (p : Row → Bool) : List Row :=
  ((tbl.filter fun r => p r && decide (100 ≤ r.rating_total) && decide (4 ≤ r.rating)).insertionSort
      ratedOrd).take 50

/-- The row shape produced by the KPI aggregate query. -/
structure KpiRow where
  products : Nat
  avg_price : Option ℚ
  avg_mrp : Option ℚ
  avg_discount_pct : Option ℚ
  no_discount_items : Option ℚ
deriving DecidableEq

/-- `ROUND(x, 2)`: round to two decimal places. -/
def round2 (x : ℚ) : ℚ := (Rat.floor (x * 100 + 1 / 2) : ℚ) / 100

/-- `ROUND(AVG(col), 2)` under standard SQL aggregate semantics: NULL on
an empty collection, otherwise the rounded mean. -/
def avgAgg (xs : List ℚ) : Option ℚ :=
  if xs = [] then none else some (round2 (xs.sum / xs.length))

/-- `SUM(col)` under standard SQL aggregate semantics: NULL on an empty
collection, otherwise the sum. -/
def sumAgg (xs : List ℚ) : Option ℚ :=
  if xs = [] then none else some xs.sum

/-- Relational semantics of the KPI query (streamlit_app.py lines 56-65)
under standard SQL aggregate semantics: an aggregate query without
GROUP BY produces exactly one row; `COUNT(*)` of no rows is 0 while
`AVG` and `SUM` of no rows are NULL. -/
def kpis_query_rows (tbl : List Row) (p : Row → Bool) : List KpiRow :=
  [⟨(tbl.filter p).length,
    avgAgg ((tbl.filter p).map Row.price),
    avgAgg ((tbl.filter p).map Row.mrp),
    avgAgg ((tbl.filter p).map Row.discount_percent),
    sumAgg ((tbl.filter p).map fun r => if r.price = r.mrp then 1 else 0)⟩]

/-- The all-zero fallback series (streamlit_app.py lines 66-69). -/
def zero_kpis : KpiRow := ⟨0, some 0, some 0, some 0, some 0⟩

/-- Embedding of `kpis = kpis_df.iloc[0] if not kpis_df.empty else
zero series` (streamlit_app.py lines 66-69). -/
def kpis : List KpiRow → KpiRow
  | [] => zero_kpis
  | r :: _ => r

/-- The KPI summary the program computes for a table and predicate. -/
def kpis_pipeline (tbl : List Row) (p : Row → Bool) : KpiRow :=
  kpis (kpis_query_rows tbl p)

/-- The discount-band CASE expression (streamlit_app.py lines 82-88),
evaluated in listed order with first match winning. -/
def band_case (d : ℚ) : Chars :=
  if d = 0 then "0%".toList
  else if d < 20 then "0-20%".toList
  else if d < 40 then "20-40%".toList
  else if d < 60 then "40-60%".toList
  else "60%+".toList

/-- The price-bucket CASE expression (streamlit_app.py lines 103-109),
evaluated in listed order with first match winning. -/
def price_bucket_case (p : ℚ) : Chars :=
  if p < 500 then "<500".toList
  else if p < 1000 then "500-999".toList
  else if p < 2000 then "1000-1999".toList
  else if p < 5000 then "2000-4999".toList
  else "5000+".toList

/-- A stored query-cache entry: the SQL text, the time it was fetched,
and the rows fetched. -/
structure CacheEntry (α : Type) where
  sql : Chars
  time : Nat
  rows : List α
deriving DecidableEq

/-- What the query gateway returns for one call: a structured error
with a message, a list of rows, or an empty/None payload. -/
inductive GatewayResult (α : Type) where
  | errorRes (msg : Chars)
  | rowsRes (rows : List α)
  | noneRes
deriving DecidableEq

/-- The result a call to `q` produces, the cache state after the call,
and whether the gateway was invoked by this call. -/
structure QOutcome (α : Type) where
  result : Except Chars (List α)
  state : List (CacheEntry α)
  gatewayCalled : Bool

/-- Look up the freshest stored entry for a SQL text. -/
def cacheLookup {α : Type} (st : List (CacheEntry α)) (sql : Chars) : Option (Nat × List α) :=
  match st.find? (fun e => decide (e.sql = sql)) with
  | some e => some (e.time, e.rows)
  | none => none

/-- The body of `q` on a cache miss (streamlit_app.py lines 16-21): call
the gateway; a structured error is raised (and nothing is stored), rows
are returned and stored, an empty/None payload becomes an empty table
(`res or []`) and is stored. -/
def q_miss {α : Type} (g : Chars → GatewayResult α) (st : List (CacheEntry α))
    (now : Nat) (sql : Chars) : QOutcome α :=
  match g sql with
  | .errorRes m => ⟨.error m, st, true⟩
  | .rowsRes rs => ⟨.ok rs, ⟨sql, now, rs⟩ :: st, true⟩
  | .noneRes => ⟨.ok [], ⟨sql, now, []⟩ :: st, true⟩

/-- Modelled from the spec: the TTL cache wrapping `q`
(`st.cache_data(ttl=300)` is library code outside the repository).  A
result fetched within the last 300 time units is returned without a
gateway call; otherwise the gateway is consulted via `q_miss`. -/
def q {α : Type} (g : Chars → GatewayResult α) (st : List (CacheEntry α))
    (now : Nat) (sql : Chars) : QOutcome α :=
  match cacheLookup st sql with
  | some (t, rs) => if now - t ≤ 300 then ⟨.ok rs, st, false⟩ else q_miss g st now sql
  | none => q_miss g st now sql

/-- A parsed JSON value. -/
inductive Json where
  | null
  | bool (b : Bool)
  | num (x : ℚ)
  | str (s : Chars)
  | arr (xs : List Json)
  | obj (fields : List (Chars × Json))

/-- Python truthiness of a parsed JSON value: None, False, 0, and the
empty string, list, and dict are falsy. -/
def pyFalsy : Json → Bool
  | .null => true
  | .bool b => !b
  | .num x => decide (x = 0)
  | .str s => s.isEmpty
  | .arr xs => xs.isEmpty
  | .obj fs => fs.isEmpty

/-- Embedding of `load_pack` (streamlit_app.py lines 166-171).  The file
read is `none` when reading raised; `parse` abstracts `json.loads`,
returning `none` when parsing raised.  Any failure yields the empty
dict; otherwise the raw parse result is returned.  The function is
total: it never fails. -/
def load_pack (parse : Chars → Option Json) (file : Option Chars) : Json :=
  match file with
  | none => Json.obj []
  | some s =>
    match parse s with
    | none => Json.obj []
    | some v => v

/-- What the per-pack rendering path does with a loaded pack. -/
inductive PackRender where
  | warning
  | content (pack : Json)

/-- Embedding of the per-pack UI path (streamlit_app.py lines 188-191):
a falsy pack shows the could-not-read warning, otherwise the pack
content is rendered. -/
def render_pack (pack : Json) : PackRender :=
  if pyFalsy pack then .warning else .content pack

/-- Concrete rows for the top-discounted ranking example: discounts
[50, 50, 30] with prices [200, 100, 50]. -/
def td_row (i : Nat) (price disc : ℚ) : Row := ⟨i, [], [], price, 0, disc, 0, 0⟩

/-- The three-row example table of the top-discounted ranking property. -/
def td_table : List Row := [td_row 1 200 50, td_row 2 100 50, td_row 3 50 30]

/-- A matching row for the top-rated truncation analysis: rating 4 and
rating count 100 + i. -/
def c8_row (i : Nat) : Row := ⟨i, [], [], 10, 0, 0, 4, 100 + i⟩

/-- A 51-row table in which every row passes the top-rated filter. -/
def c8_table : List Row := (List.range 51).map c8_row

/-- A hostile brand string attempting quote-breaking injection. -/
def inject_brand : Chars :=
  "x".toList ++ (quoteChar :: "; DROP TABLE trent.products; --".toList)

/-! ## Theorems -/

theorem parseLitAux_replace (s : Chars) :
    parseLitAux LitState.inside (pyReplaceQuote s ++ [quoteChar]) = some s := by
  induction s with
  | nil => simp [pyReplaceQuote, parseLitAux]
  | cons c s ih =>
    by_cases hc : c = quoteChar
    · subst hc
      simp [pyReplaceQuote, parseLitAux, ih]
    · simp [pyReplaceQuote, parseLitAux, hc, ih]

/-- C1: for every string value containing one or more single-quote
characters, `sql_quote` produces a literal that parses back, under the
query language's string-literal rules, to exactly the original string. -/
theorem sql_quote_roundtrip (s : Chars) (hq : quoteChar ∈ s) :
    parseStringLiteral (sql_quote s) = some s := by
  simp [parseStringLiteral, sql_quote, parseLitAux_replace]

/-- C1 witness: a concrete value containing a quote character
round-trips. -/
theorem sql_quote_roundtrip_witness :
    quoteChar ∈ ('a' :: quoteChar :: ['b']) ∧
      parseStringLiteral (sql_quote ('a' :: quoteChar :: ['b'])) = some ('a' :: quoteChar :: ['b']) :=
  ⟨by decide, sql_quote_roundtrip ('a' :: quoteChar :: ['b']) (by decide)⟩

/-- C6: the discount-band and price-bucket CASE expressions realise
exactly the fixed half-open boundaries, first match winning: over
discount percents in 0-100 the five bands characterise 0, (0,20),
[20,40), [40,60) and [60,100]; over nonnegative prices the five buckets
characterise [0,500), [500,1000), [1000,2000), [2000,5000) and
[5000,infinity). -/
theorem band_price_partition :
    (∀ d : ℚ, 0 ≤ d → d ≤ 100 →
      ((band_case d = "0%".toList ↔ d = 0) ∧
       (band_case d = "0-20%".toList ↔ 0 < d ∧ d < 20) ∧
       (band_case d = "20-40%".toList ↔ 20 ≤ d ∧ d < 40) ∧
       (band_case d = "40-60%".toList ↔ 40 ≤ d ∧ d < 60) ∧
       (band_case d = "60%+".toList ↔ 60 ≤ d))) ∧
    (∀ p : ℚ, 0 ≤ p →
      ((price_bucket_case p = "<500".toList ↔ p < 500) ∧
       (price_bucket_case p = "500-999".toList ↔ 500 ≤ p ∧ p < 1000) ∧
       (price_bucket_case p = "1000-1999".toList ↔ 1000 ≤ p ∧ p < 2000) ∧
       (price_bucket_case p = "2000-4999".toList ↔ 2000 ≤ p ∧ p < 5000) ∧
       (price_bucket_case p = "5000+".toList ↔ 5000 ≤ p))) := by
  constructor
  · intro d h0 h100
    unfold band_case
    split_ifs with h1 h2 h3 h4
    · subst h1; decide
    · have hd : 0 < d := lt_of_le_of_ne h0 (Ne.symm h1)
      refine ⟨iff_of_false (by decide) h1, iff_of_true rfl ⟨hd, h2⟩,
        iff_of_false (by decide) ?_, iff_of_false (by decide) ?_, iff_of_false (by decide) ?_⟩
      · rintro ⟨a, _⟩; linarith
      · rintro ⟨a, _⟩; linarith
      · intro a; linarith
    · have hd : 20 ≤ d := le_of_not_lt h2
      refine ⟨iff_of_false (by decide) h1, iff_of_false (by decide) ?_, iff_of_true rfl ⟨hd, h3⟩,
        iff_of_false (by decide) ?_, iff_of_false (by decide) ?_⟩
      · rintro ⟨_, b⟩; linarith
      · rintro ⟨a, _⟩; linarith
      · intro a; linarith
    · have hd : 40 ≤ d := le_of_not_lt h3
      refine ⟨iff_of_false (by decide) h1, iff_of_false (by decide) ?_, iff_of_false (by decide) ?_,
        iff_of_true rfl ⟨hd, h4⟩, iff_of_false (by decide) ?_⟩
      · rintro ⟨_, b⟩; linarith
      · rintro ⟨_, b⟩; linarith
      · intro a; linarith
    · have hd : 60 ≤ d := le_of_not_lt h4
      refine ⟨iff_of_false (by decide) h1, iff_of_false (by decide) ?_, iff_of_false (by decide) ?_,
        iff_of_false (by decide) ?_, iff_of_true rfl hd⟩
      · rintro ⟨_, b⟩; linarith
      · rintro ⟨_, b⟩; linarith
      · rintro ⟨_, b⟩; linarith
  · intro p h0
    unfold price_bucket_case
    split_ifs with h1 h2 h3 h4
    · refine ⟨iff_of_true rfl h1, iff_of_false (by decide) ?_, iff_of_false (by decide) ?_,
        iff_of_false (by decide) ?_, iff_of_false (by decide) ?_⟩
      · rintro ⟨a, _⟩; linarith
      · rintro ⟨a, _⟩; linarith
      · rintro ⟨a, _⟩; linarith
      · intro a; linarith
    · have hp : 500 ≤ p := le_of_not_lt h1
      refine ⟨iff_of_false (by decide) ?_, iff_of_true rfl ⟨hp, h2⟩, iff_of_false (by decide) ?_,
        iff_of_false (by decide) ?_, iff_of_false (by decide) ?_⟩
      · intro a; linarith
      · rintro ⟨a, _⟩; linarith
      · rintro ⟨a, _⟩; linarith
      · intro a; linarith
    · have hp : 1000 ≤ p := le_of_not_lt h2
      refine ⟨iff_of_false (by decide) ?_, iff_of_false (by decide) ?_, iff_of_true rfl ⟨hp, h3⟩,
        iff_of_false (by decide) ?_, iff_of_false (by decide) ?_⟩
      · intro a; linarith
      · rintro ⟨_, b⟩; linarith
      · rintro ⟨a, _⟩; linarith
      · intro a; linarith
    · have hp : 2000 ≤ p := le_of_not_lt h3
      refine ⟨iff_of_false (by decide) ?_, iff_of_false (by decide) ?_, iff_of_false (by decide) ?_,
        iff_of_true rfl ⟨hp, h4⟩, iff_of_false (by decide) ?_⟩
      · intro a; linarith
      · rintro ⟨_, b⟩; linarith
      · rintro ⟨_, b⟩; linarith
      · intro a; linarith
    · have hp : 5000 ≤ p := le_of_not_lt h4
      refine ⟨iff_of_false (by decide) ?_, iff_of_false (by decide) ?_, iff_of_false (by decide) ?_,
        iff_of_false (by decide) ?_, iff_of_true rfl hp⟩
      · intro a; linarith
      · rintro ⟨_, b⟩; linarith
      · rintro ⟨_, b⟩; linarith
      · rintro ⟨_, b⟩; linarith

/-- C6 witness: the partition evaluated at discount 40 and price 1000. -/
theorem band_price_partition_witness :
    band_case 40 = "40-60%".toList ∧ price_bucket_case 1000 = "1000-1999".toList :=
  ⟨((band_price_partition.1 40 (by decide) (by decide)).2.2.2.1).mpr ⟨by decide, by decide⟩,
   ((band_price_partition.2 1000 (by decide)).2.2.1).mpr ⟨by decide, by decide⟩⟩

/-- C5 counterexample: over a predicate matching zero rows the program
yields products = 0 but NULL, not zero, averages and no-discount sum
(standard aggregate semantics give one all-NULL-aggregate row, so the
all-zero fallback for an empty result set does not apply). -/
theorem kpis_zero_rows_counterexample :
    (kpis_pipeline [td_row 1 200 50] (fun _ => false)).products = 0 ∧
      (kpis_pipeline [td_row 1 200 50] (fun _ => false)).avg_price ≠ some 0 ∧
      (kpis_pipeline [td_row 1 200 50] (fun _ => false)).no_discount_items ≠ some 0 := by
  decide

/-- C5 (amended): when the filter predicate matches zero rows the KPI
summary has products = 0 and NULL (not zero-valued) average and sum
fields, produced without failing; the all-zero fallback summary arises
exactly when the query returns an empty row set. -/
theorem kpis_zero_rows_amended (tbl : List Row) (p : Row → Bool)
    (h : tbl.filter p = []) :
    kpis_pipeline tbl p = ⟨0, none, none, none, none⟩ ∧ kpis [] = zero_kpis := by
  constructor
  · unfold kpis_pipeline kpis_query_rows kpis
    simp [h, avgAgg, sumAgg]
  · rfl

/-- C5 witness: the amended statement applied to a one-row table and the
always-false predicate. -/
theorem kpis_zero_rows_amended_witness :
    List.filter (fun _ => false) [td_row 1 200 50] = [] ∧
      kpis_pipeline [td_row 1 200 50] (fun _ => false) = ⟨0, none, none, none, none⟩ :=
  ⟨by decide, (kpis_zero_rows_amended [td_row 1 200 50] (fun _ => false) (by decide)).1⟩

/-- C7: for every table state and predicate, the top-discounted result
has at most 50 rows and is ordered by discount percent descending with
ties broken by price ascending; on rows with discounts [50, 50, 30] and
prices [200, 100, 50] the order is (50, 100), (50, 200), (30, 50). -/
theorem top_discounted_spec :
    (∀ tbl p, (top_discounted tbl p).length ≤ 50 ∧
        (top_discounted tbl p).Pairwise discOrd) ∧
      top_discounted td_table (fun _ => true) =
        [td_row 2 100 50, td_row 1 200 50, td_row 3 50 30] := by
  refine ⟨fun tbl p => ⟨?_, ?_⟩, ?_⟩
  · exact List.length_take_le 50 _
  · exact List.Pairwise.sublist (List.take_sublist _ _) (List.sorted_insertionSort discOrd _)
  · decide

/-- C8 counterexample: with 51 rows all passing the rating filter, the
result keeps only 50 of them, so it does not contain exactly the
predicate-matching rows with rating_total at least 100 and rating at
least 4: the matching row of lowest rating count is absent. -/
theorem top_rated_counterexample :
    c8_row 0 ∈ c8_table ∧ 100 ≤ (c8_row 0).rating_total ∧ 4 ≤ (c8_row 0).rating ∧
      c8_row 0 ∉ top_rated c8_table (fun _ => true) := by
  decide

/-- C8 (amended): the top-rated result has at most 50 rows, each drawn
from the predicate-matching rows with rating_total at least 100 and
rating at least 4, contains all such rows whenever at most 50 match,
and is ordered by rating descending with ties broken by rating count
descending. -/
theorem top_rated_spec (tbl : List Row) (p : Row → Bool) :
    (top_rated tbl p).length ≤ 50 ∧
    (top_rated tbl p).Pairwise ratedOrd ∧
    (∀ r ∈ top_rated tbl p,
      r ∈ tbl ∧ p r = true ∧ 100 ≤ r.rating_total ∧ 4 ≤ r.rating) ∧
    ((tbl.filter fun r =>
        p r && decide (100 ≤ r.rating_total) && decide (4 ≤ r.rating)).length ≤ 50 →
      ∀ r, r ∈ tbl → p r = true → 100 ≤ r.rating_total → 4 ≤ r.rating →
        r ∈ top_rated tbl p) := by
  refine ⟨List.length_take_le 50 _,
    List.Pairwise.sublist (List.take_sublist _ _) (List.sorted_insertionSort ratedOrd _),
    ?_, ?_⟩
  · intro r hr
    have h1 : r ∈ (tbl.filter fun r =>
        p r && decide (100 ≤ r.rating_total) && decide (4 ≤ r.rating)).insertionSort ratedOrd :=
      List.take_subset _ _ hr
    have h2 := (List.perm_insertionSort ratedOrd _).mem_iff.mp h1
    have h3 := List.mem_filter.mp h2
    refine ⟨h3.1, ?_, ?_, ?_⟩
    · have := h3.2; simp only [Bool.and_eq_true, decide_eq_true_eq] at this
      exact this.1.1
    · have := h3.2; simp only [Bool.and_eq_true, decide_eq_true_eq] at this
      exact this.1.2
    · have := h3.2; simp only [Bool.and_eq_true, decide_eq_true_eq] at this
      exact this.2
  · intro hlen r hmem hp h100 h4
    have hf : r ∈ tbl.filter fun r =>
        p r && decide (100 ≤ r.rating_total) && decide (4 ≤ r.rating) :=
      List.mem_filter.mpr ⟨hmem, by simp [hp, h100, h4]⟩
    have hs : r ∈ (tbl.filter fun r =>
        p r && decide (100 ≤ r.rating_total) && decide (4 ≤ r.rating)).insertionSort ratedOrd :=
      (List.perm_insertionSort ratedOrd _).mem_iff.mpr hf
    have hall : ((tbl.filter fun r =>
        p r && decide (100 ≤ r.rating_total) && decide (4 ≤ r.rating)).insertionSort
          ratedOrd).length ≤ 50 := by
      rw [List.length_insertionSort]; exact hlen
    unfold top_rated
    rw [List.take_of_length_le hall]
    exact hs

/-- C8 witness: the amended statement applied to a one-row table whose
row passes the rating filter. -/
theorem top_rated_spec_witness :
    c8_row 0 ∈ top_rated [c8_row 0] (fun _ => true) :=
  (top_rated_spec [c8_row 0] (fun _ => true)).2.2.2 (by decide) (c8_row 0)
    (by decide) (by decide) (by decide) (by decide)

/-- C3: from a state with no entry for the text, a call invokes the
gateway; a second call with the identical text within 300 time units
returns the stored rows without invoking the gateway (one gateway call
in total), while a second call after the TTL has expired invokes the
gateway again. -/
theorem q_cache_ttl {α : Type} (g : Chars → GatewayResult α) (st0 : List (CacheEntry α))
    (sql : Chars) (t1 t2 : Nat) (rs : List α)
    (hmiss : cacheLookup st0 sql = none) (hg : g sql = .rowsRes rs) (hle : t1 ≤ t2) :
    (q g st0 t1 sql).gatewayCalled = true ∧
    (t2 - t1 ≤ 300 →
      q g (q g st0 t1 sql).state t2 sql = ⟨.ok rs, (q g st0 t1 sql).state, false⟩) ∧
    (300 < t2 - t1 → (q g (q g st0 t1 sql).state t2 sql).gatewayCalled = true) := by
  have hstate : q g st0 t1 sql = ⟨.ok rs, ⟨sql, t1, rs⟩ :: st0, true⟩ := by
    unfold q; rw [hmiss]; unfold q_miss; rw [hg]
  have hlook : cacheLookup (CacheEntry.mk sql t1 rs :: st0) sql = some (t1, rs) := by
    unfold cacheLookup
    rw [List.find?_cons_of_pos _ (by simp)]
  refine ⟨by rw [hstate], ?_, ?_⟩
  · intro h
    rw [hstate]
    show q g (CacheEntry.mk sql t1 rs :: st0) t2 sql = _
    unfold q; rw [hlook]
    simp [h]
  · intro h
    rw [hstate]
    show (q g (CacheEntry.mk sql t1 rs :: st0) t2 sql).gatewayCalled = true
    unfold q; rw [hlook]
    have : ¬(t2 - t1 ≤ 300) := by omega
    simp only [this, if_false]
    unfold q_miss; rw [hg]

/-- C3 witness: a concrete gateway, an empty initial state, first call
at time 0 and second call at time 100. -/
theorem q_cache_ttl_witness :
    (q (fun _ => GatewayResult.rowsRes [0]) ([] : List (CacheEntry Nat)) 0 ['s']).gatewayCalled
        = true ∧
    (100 - 0 ≤ 300 →
      q (fun _ => GatewayResult.rowsRes [0])
          (q (fun _ => GatewayResult.rowsRes [0]) [] 0 ['s']).state 100 ['s'] =
        ⟨.ok [0], (q (fun _ => GatewayResult.rowsRes [0]) [] 0 ['s']).state, false⟩) ∧
    (300 < 100 - 0 →
      (q (fun _ => GatewayResult.rowsRes [0])
          (q (fun _ => GatewayResult.rowsRes [0]) [] 0 ['s']).state 100 ['s']).gatewayCalled
        = true) :=
  q_cache_ttl (fun _ => GatewayResult.rowsRes [0]) [] ['s'] 0 100 [0] rfl rfl (by decide)

/-- C4: when the gateway is consulted and reports a structured error,
the call raises the error to its caller and stores nothing (the cache
state is unchanged, so no successful-looking empty result is kept);
when the gateway returns rows (or an empty payload) the call returns
the tabular result without raising. -/
theorem q_error_handling {α : Type} (g : Chars → GatewayResult α) (st : List (CacheEntry α))
    (now : Nat) (sql : Chars) (hmiss : cacheLookup st sql = none) :
    (∀ m, g sql = .errorRes m → q g st now sql = ⟨.error m, st, true⟩) ∧
    (∀ rs, g sql = .rowsRes rs → (q g st now sql).result = .ok rs) ∧
    (g sql = .noneRes → (q g st now sql).result = .ok []) := by
  unfold q; rw [hmiss]; unfold q_miss
  exact ⟨fun m hm => by rw [hm], fun rs hr => by rw [hr], fun hn => by rw [hn]⟩

/-- C4 witness: a gateway reporting a structured error on an empty
cache state. -/
theorem q_error_handling_witness :
    q (fun _ => GatewayResult.errorRes ['e']) ([] : List (CacheEntry Nat)) 0 ['s'] =
      ⟨.error ['e'], [], true⟩ :=
  (q_error_handling (fun _ => GatewayResult.errorRes ['e']) [] 0 ['s'] rfl).1 ['e'] rfl

/-- C9: load_pack is total (never raises): a read failure yields the
empty structure, a parse failure yields the empty structure, success
yields the parsed structure, and the per-pack UI path renders the
warning for the empty structure rather than aborting. -/
theorem load_pack_total (parse : Chars → Option Json) (file : Option Chars) :
    (file = none → load_pack parse file = Json.obj []) ∧
    (∀ s, file = some s → parse s = none → load_pack parse file = Json.obj []) ∧
    (∀ s v, file = some s → parse s = some v → load_pack parse file = v) ∧
    render_pack (Json.obj []) = PackRender.warning := by
  refine ⟨fun h => by rw [h]; rfl, fun s h hp => by rw [h]; simp [load_pack, hp],
    fun s v h hp => by rw [h]; simp [load_pack, hp], rfl⟩

/-- C9 witness: a malformed pack file (its parse fails) yields the
empty structure. -/
theorem load_pack_total_witness :
    load_pack (fun _ => none) (some ['x']) = Json.obj [] :=
  (load_pack_total (fun _ => none) (some ['x'])).2.1 ['x'] rfl rfl

/-- C10: a pack file whose content is valid JSON denoting a falsy value
is returned raw by load_pack, and the viewer then takes the same
could-not-read warning path as for an actual read failure. -/
theorem load_pack_falsy (parse : Chars → Option Json) (s : Chars) (v : Json)
    (hp : parse s = some v) (hf : pyFalsy v = true) :
    load_pack parse (some s) = v ∧
    render_pack (load_pack parse (some s)) = PackRender.warning ∧
    render_pack (load_pack parse (some s)) = render_pack (load_pack parse none) := by
  have h1 : load_pack parse (some s) = v := by simp [load_pack, hp]
  have h2 : render_pack v = PackRender.warning := by unfold render_pack; simp [hf]
  exact ⟨h1, by rw [h1]; exact h2, by rw [h1, h2]; rfl⟩

/-- C10 witness: a file parsing to JSON null is returned raw and still
renders the warning. -/
theorem load_pack_falsy_witness :
    load_pack (fun _ => some Json.null) (some ['x']) = Json.null ∧
      render_pack (load_pack (fun _ => some Json.null) (some ['x'])) = PackRender.warning :=
  ⟨(load_pack_falsy (fun _ => some Json.null) ['x'] Json.null rfl rfl).1,
   (load_pack_falsy (fun _ => some Json.null) ['x'] Json.null rfl rfl).2.1⟩

theorem stripAux_outside_noquote (xs ys : Chars) (h : quoteChar ∉ xs) :
    stripAux ScanState.outside (xs ++ ys) =
      (stripAux ScanState.outside ys).map (fun t => xs ++ t) := by
  induction xs with
  | nil =>
    cases hh : stripAux ScanState.outside ys <;> simp [hh]
  | cons c xs ih =>
    have hc : ¬(c = quoteChar) := fun hh => h (hh ▸ List.mem_cons_self c xs)
    have h2 : quoteChar ∉ xs := fun hh => h (List.mem_cons_of_mem c hh)
    simp [stripAux, hc, ih h2, Option.map_map]
    cases stripAux ScanState.outside ys <;> simp [Function.comp]

theorem stripAux_inside_noquote (xs ys : Chars) (h : quoteChar ∉ xs) :
    stripAux ScanState.inside (xs ++ ys) = stripAux ScanState.inside ys := by
  induction xs with
  | nil => rfl
  | cons c xs ih =>
    have hc : ¬(c = quoteChar) := fun hh => h (hh ▸ List.mem_cons_self c xs)
    have h2 : quoteChar ∉ xs := fun hh => h (List.mem_cons_of_mem c hh)
    simp [stripAux, hc, ih h2]

theorem stripAux_inside_replace (b ys : Chars) :
    stripAux ScanState.inside (pyReplaceQuote b ++ ys) = stripAux ScanState.inside ys := by
  induction b with
  | nil => rfl
  | cons c b ih =>
    by_cases hc : c = quoteChar
    · subst hc; simp [pyReplaceQuote, stripAux, ih]
    · simp [pyReplaceQuote, stripAux, hc, ih]

theorem stripAux_afterQuote_notQuote (ys : Chars) (h : HeadNotQuote ys) :
    stripAux ScanState.afterQuote ys = stripAux ScanState.outside ys := by
  cases ys with
  | nil => rfl
  | cons c r =>
    have : ¬(c = quoteChar) := by simpa [HeadNotQuote] using h
    simp [stripAux, this]

theorem strip_sql_quote (b ys : Chars) (h : HeadNotQuote ys) :
    stripAux ScanState.outside (sql_quote b ++ ys) = stripAux ScanState.outside ys := by
  show stripAux ScanState.outside ((quoteChar :: (pyReplaceQuote b ++ [quoteChar])) ++ ys) = _
  rw [List.cons_append]
  simp only [stripAux, if_pos rfl]
  rw [List.append_assoc, List.singleton_append, stripAux_inside_replace]
  simp only [stripAux, if_pos rfl]
  exact stripAux_afterQuote_notQuote ys h

theorem strip_sqlLit (s : String) (ys : Chars) (hq : quoteChar ∉ s.toList)
    (h : HeadNotQuote ys) :
    stripAux ScanState.outside (sqlLit s ++ ys) = stripAux ScanState.outside ys := by
  show stripAux ScanState.outside ((quoteChar :: (s.toList ++ [quoteChar])) ++ ys) = _
  rw [List.cons_append]
  simp only [stripAux, if_pos rfl]
  rw [List.append_assoc, List.singleton_append, stripAux_inside_noquote _ _ hq]
  simp only [stripAux, if_pos rfl]
  exact stripAux_afterQuote_notQuote ys h

theorem tailSafe_nil : TailSafe [] := ⟨[], rfl, by simp⟩

theorem tailSafe_text (x ys : Chars) (hq : quoteChar ∉ x) (hs : semiChar ∉ x)
    (h : TailSafe ys) : TailSafe (x ++ ys) := by
  obtain ⟨t, ht, hsemi⟩ := h
  refine ⟨x ++ t, ?_, ?_⟩
  · rw [stripAux_outside_noquote _ _ hq, ht]; rfl
  · intro hmem
    rcases List.mem_append.mp hmem with hx | hx
    · exact hs hx
    · exact hsemi hx

theorem tailSafe_of_text (x : Chars) (hq : quoteChar ∉ x) (hs : semiChar ∉ x) :
    TailSafe x := by
  have := tailSafe_text x [] hq hs tailSafe_nil
  simpa using this

theorem tailSafe_lit (b ys : Chars) (hh : HeadNotQuote ys) (h : TailSafe ys) :
    TailSafe (sql_quote b ++ ys) := by
  obtain ⟨t, ht, hsemi⟩ := h
  exact ⟨t, by rw [strip_sql_quote _ _ hh]; exact ht, hsemi⟩

theorem tailSafe_sqlLit (s : String) (ys : Chars) (hq : quoteChar ∉ s.toList)
    (hh : HeadNotQuote ys) (h : TailSafe ys) : TailSafe (sqlLit s ++ ys) := by
  obtain ⟨t, ht, hsemi⟩ := h
  exact ⟨t, by rw [strip_sqlLit _ _ hq hh]; exact ht, hsemi⟩

theorem hnq_append (x ys : Chars) (hx : x ≠ []) (h : HeadNotQuote x) :
    HeadNotQuote (x ++ ys) := by
  cases x with
  | nil => exact absurd rfl hx
  | cons c r => simpa [HeadNotQuote] using h

theorem dChar_isDigit (k : Nat) (h : k < 10) : (dChar k).isDigit = true := by
  interval_cases k <;> decide

theorem renderNatAux_digits (fuel : Nat) : ∀ n, ∀ c ∈ renderNatAux fuel n, c.isDigit = true := by
  induction fuel with
  | zero => intro n c hc; simp [renderNatAux] at hc
  | succ fuel ih =>
    intro n c hc
    by_cases h : n < 10
    · simp only [renderNatAux, if_pos h, List.mem_singleton] at hc
      exact hc ▸ dChar_isDigit n h
    · simp only [renderNatAux, if_neg h, List.mem_append, List.mem_singleton] at hc
      rcases hc with hc | hc
      · exact ih (n / 10) c hc
      · exact hc ▸ dChar_isDigit (n % 10) (Nat.mod_lt n (by omega))

theorem renderNat_no_quote (n : Nat) : quoteChar ∉ renderNat n := by
  intro hm
  have := renderNatAux_digits (n + 1) n quoteChar hm
  exact absurd this (by decide)

theorem renderNat_no_semi (n : Nat) : semiChar ∉ renderNat n := by
  intro hm
  have := renderNatAux_digits (n + 1) n semiChar hm
  exact absurd this (by decide)

theorem renderRating_no_quote (r : Nat) : quoteChar ∉ renderRating r := by
  intro hm
  unfold renderRating at hm
  rcases List.mem_append.mp hm with h | h
  · exact renderNat_no_quote _ h
  · rcases List.mem_cons.mp h with h | h
    · exact absurd h (by decide)
    · exact renderNat_no_quote _ h

theorem renderRating_no_semi (r : Nat) : semiChar ∉ renderRating r := by
  intro hm
  unfold renderRating at hm
  rcases List.mem_append.mp hm with h | h
  · exact renderNat_no_semi _ h
  · rcases List.mem_cons.mp h with h | h
    · exact absurd h (by decide)
    · exact renderNat_no_semi _ h

theorem clauseSafe_tautology : ClauseSafe ("1=1".toList) :=
  ⟨fun ys _ h => tailSafe_text _ ys (by decide) (by decide) h, by decide, by decide⟩

theorem clauseSafe_disc (d : Nat) :
    ClauseSafe ("discount_percent >= ".toList ++ renderNat d) := by
  refine ⟨fun ys _ h => ?_, ?_, ?_⟩
  · rw [List.append_assoc]
    exact tailSafe_text _ _ (by decide) (by decide)
      (tailSafe_text _ _ (renderNat_no_quote d) (renderNat_no_semi d) h)
  · exact hnq_append _ _ (by decide) (by decide)
  · simp

theorem clauseSafe_rating (r : Nat) :
    ClauseSafe ("rating >= ".toList ++ renderRating r) := by
  refine ⟨fun ys _ h => ?_, ?_, ?_⟩
  · rw [List.append_assoc]
    exact tailSafe_text _ _ (by decide) (by decide)
      (tailSafe_text _ _ (renderRating_no_quote r) (renderRating_no_semi r) h)
  · exact hnq_append _ _ (by decide) (by decide)
  · simp

theorem brand_csv_safe (bs : List Chars) (ys : Chars) (hh : HeadNotQuote ys)
    (h : TailSafe ys) : TailSafe (brand_csv bs ++ ys) := by
  induction bs with
  | nil => simpa [brand_csv]
  | cons b bs ih =>
    cases bs with
    | nil =>
      show TailSafe (sql_quote b ++ ys)
      exact tailSafe_lit b ys hh h
    | cons b2 bs2 =>
      show TailSafe ((sql_quote b ++ (',' :: brand_csv (b2 :: bs2))) ++ ys)
      rw [List.append_assoc, List.cons_append]
      refine tailSafe_lit b _ (by simp [HeadNotQuote]; decide) ?_
      have : TailSafe (brand_csv (b2 :: bs2) ++ ys) := ih
      have h2 : (',' :: (brand_csv (b2 :: bs2) ++ ys)) = [','] ++ (brand_csv (b2 :: bs2) ++ ys) := rfl
      rw [h2]
      exact tailSafe_text _ _ (by decide) (by decide) this

theorem clauseSafe_brand (bs : List Chars) :
    ClauseSafe ("brand IN (".toList ++ (brand_csv bs ++ ")".toList)) := by
  refine ⟨fun ys hh h => ?_, ?_, ?_⟩
  · rw [List.append_assoc, List.append_assoc]
    refine tailSafe_text _ _ (by decide) (by decide) ?_
    refine brand_csv_safe bs _ (hnq_append _ _ (by decide) (by decide)) ?_
    exact tailSafe_text _ _ (by decide) (by decide) h
  · exact hnq_append _ _ (by decide) (by decide)
  · simp

theorem joinSep_safe : ∀ cs : List Chars, (∀ c ∈ cs, ClauseSafe c) →
    ∀ ys, HeadNotQuote ys → TailSafe ys → TailSafe (joinSep " AND ".toList cs ++ ys) := by
  intro cs
  induction cs with
  | nil => intro _ ys _ hts; simpa [joinSep]
  | cons c cs ih =>
    intro h ys hh hts
    cases cs with
    | nil =>
      show TailSafe (c ++ ys)
      exact (h c (by simp)).1 ys hh hts
    | cons c2 cs2 =>
      show TailSafe ((c ++ (" AND ".toList ++ joinSep " AND ".toList (c2 :: cs2))) ++ ys)
      rw [List.append_assoc, List.append_assoc]
      refine (h c (by simp)).1 _ (hnq_append _ _ (by decide) (by decide)) ?_
      refine tailSafe_text _ _ (by decide) (by decide) ?_
      exact ih (fun x hx => h x (List.mem_cons_of_mem c hx)) ys hh hts

theorem where_clauses_safe (bs : List Chars) (d r : Nat) :
    ∀ c ∈ where_clauses bs d r, ClauseSafe c := by
  intro c hc
  have hd : c = "1=1".toList ∨ c = "brand IN (".toList ++ (brand_csv bs ++ ")".toList) ∨
      c = "discount_percent >= ".toList ++ renderNat d ∨
      c = "rating >= ".toList ++ renderRating r := by
    unfold where_clauses at hc
    rcases List.mem_append.mp hc with h1 | h1
    · rcases List.mem_append.mp h1 with h2 | h2
      · rcases List.mem_append.mp h2 with h3 | h3
        · left; simpa using h3
        · by_cases hb : bs = []
          · simp [hb] at h3
          · simp only [hb, if_neg, if_false, not_false_iff, List.mem_singleton] at h3
            right; left; exact h3
      · by_cases hdd : 0 < d
        · simp only [hdd, if_pos, if_true, List.mem_singleton] at h2
          right; right; left; exact h2
        · simp [hdd] at h2
    · by_cases hrr : 0 < r
      · simp only [hrr, if_pos, if_true, List.mem_singleton] at h1
        right; right; right; exact h1
      · simp [hrr] at h1
  rcases hd with rfl | rfl | rfl | rfl
  · exact clauseSafe_tautology
  · exact clauseSafe_brand bs
  · exact clauseSafe_disc d
  · exact clauseSafe_rating r

theorem tailSafe_where (bs : List Chars) (d r : Nat) (ys : Chars)
    (hh : HeadNotQuote ys) (hts : TailSafe ys) :
    TailSafe (where_sql bs d r ++ ys) :=
  joinSep_safe _ (where_clauses_safe bs d r) ys hh hts

theorem take6_select (pre0 t : Chars)
    (hsel : (pre0.dropWhile isWs).take 6 = "SELECT".toList) :
    ((pre0 ++ t).dropWhile isWs).take 6 = "SELECT".toList := by
  rw [List.dropWhile_append]
  have hne : (pre0.dropWhile isWs).isEmpty = false := by
    cases h : pre0.dropWhile isWs with
    | nil => rw [h] at hsel; exact absurd hsel (by decide)
    | cons a l => rfl
  rw [if_neg (by simp [hne])]
  have hsplit : pre0.dropWhile isWs ++ t =
      "SELECT".toList ++ ((pre0.dropWhile isWs).drop 6 ++ t) := by
    conv_lhs => rw [← List.take_append_drop 6 (pre0.dropWhile isWs)]
    rw [hsel, List.append_assoc]
  rw [hsplit]
  exact List.take_left' (by decide)

theorem isSelect_of_parts (pre0 rest : Chars)
    (hq : quoteChar ∉ pre0) (hs : semiChar ∉ pre0)
    (hsel : (pre0.dropWhile isWs).take 6 = "SELECT".toList)
    (hrest : TailSafe rest) :
    isSelectStmt (pre0 ++ rest) = true := by
  obtain ⟨t, ht, hsemi⟩ := hrest
  have hstrip : stripLits (pre0 ++ rest) = some (pre0 ++ t) := by
    unfold stripLits
    rw [stripAux_outside_noquote _ _ hq, ht]; rfl
  unfold isSelectStmt
  rw [hstrip]
  simp only [Bool.and_eq_true, decide_eq_true_eq]
  refine ⟨take6_select _ _ hsel, fun hmem => ?_⟩
  rcases List.mem_append.mp hmem with hx | hx
  · exact hs hx
  · exact hsemi hx

theorem kpi_sql_select (bs : List Chars) (d r : Nat) :
    isSelectStmt (kpi_sql bs d r) = true := by
  unfold kpi_sql
  refine isSelect_of_parts _ _ (by decide) (by decide) (by decide) ?_
  refine tailSafe_text _ _ (by decide) (by decide) ?_
  refine tailSafe_text _ _ (by decide) (by decide) ?_
  refine tailSafe_where _ _ _ _ (by decide) ?_
  exact tailSafe_of_text _ (by decide) (by decide)

theorem bands_sql_select (bs : List Chars) (d r : Nat) :
    isSelectStmt (bands_sql bs d r) = true := by
  unfold bands_sql
  refine isSelect_of_parts _ _ (by decide) (by decide) (by decide) ?_
  refine tailSafe_sqlLit _ _ (by decide) (hnq_append _ _ (by decide) (by decide)) ?_
  refine tailSafe_text _ _ (by decide) (by decide) ?_
  refine tailSafe_sqlLit _ _ (by decide) (hnq_append _ _ (by decide) (by decide)) ?_
  refine tailSafe_text _ _ (by decide) (by decide) ?_
  refine tailSafe_sqlLit _ _ (by decide) (hnq_append _ _ (by decide) (by decide)) ?_
  refine tailSafe_text _ _ (by decide) (by decide) ?_
  refine tailSafe_sqlLit _ _ (by decide) (hnq_append _ _ (by decide) (by decide)) ?_
  refine tailSafe_text _ _ (by decide) (by decide) ?_
  refine tailSafe_sqlLit _ _ (by decide) (hnq_append _ _ (by decide) (by decide)) ?_
  refine tailSafe_text _ _ (by decide) (by decide) ?_
  refine tailSafe_text _ _ (by decide) (by decide) ?_
  refine tailSafe_text _ _ (by decide) (by decide) ?_
  refine tailSafe_where _ _ _ _ (by decide) ?_
  exact tailSafe_of_text _ (by decide) (by decide)

theorem price_buckets_sql_select (bs : List Chars) (d r : Nat) :
    isSelectStmt (price_buckets_sql bs d r) = true := by
  unfold price_buckets_sql
  refine isSelect_of_parts _ _ (by decide) (by decide) (by decide) ?_
  refine tailSafe_sqlLit _ _ (by decide) (hnq_append _ _ (by decide) (by decide)) ?_
  refine tailSafe_text _ _ (by decide) (by decide) ?_
  refine tailSafe_sqlLit _ _ (by decide) (hnq_append _ _ (by decide) (by decide)) ?_
  refine tailSafe_text _ _ (by decide) (by decide) ?_
  refine tailSafe_sqlLit _ _ (by decide) (hnq_append _ _ (by decide) (by decide)) ?_
  refine tailSafe_text _ _ (by decide) (by decide) ?_
  refine tailSafe_sqlLit _ _ (by decide) (hnq_append _ _ (by decide) (by decide)) ?_
  refine tailSafe_text _ _ (by decide) (by decide) ?_
  refine tailSafe_sqlLit _ _ (by decide) (hnq_append _ _ (by decide) (by decide)) ?_
  refine tailSafe_text _ _ (by decide) (by decide) ?_
  refine tailSafe_text _ _ (by decide) (by decide) ?_
  refine tailSafe_text _ _ (by decide) (by decide) ?_
  refine tailSafe_where _ _ _ _ (by decide) ?_
  exact tailSafe_of_text _ (by decide) (by decide)

theorem top_discounted_sql_select (bs : List Chars) (d r : Nat) :
    isSelectStmt (top_discounted_sql bs d r) = true := by
  unfold top_discounted_sql
  refine isSelect_of_parts _ _ (by decide) (by decide) (by decide) ?_
  refine tailSafe_text _ _ (by decide) (by decide) ?_
  refine tailSafe_text _ _ (by decide) (by decide) ?_
  refine tailSafe_where _ _ _ _ (by decide) ?_
  exact tailSafe_of_text _ (by decide) (by decide)

theorem top_rated_sql_select (bs : List Chars) (d r : Nat) :
    isSelectStmt (top_rated_sql bs d r) = true := by
  unfold top_rated_sql
  refine isSelect_of_parts _ _ (by decide) (by decide) (by decide) ?_
  refine tailSafe_text _ _ (by decide) (by decide) ?_
  refine tailSafe_text _ _ (by decide) (by decide) ?_
  refine tailSafe_where _ _ _ _ (by decide) ?_
  exact tailSafe_of_text _ (by decide) (by decide)

/-- C2: for every combination of filter inputs (any brand strings, any
discount threshold in 0-90, any rating threshold in 0.0-5.0 embedded as
tenths), each of the six SQL strings the program passes to the gateway
is a single SELECT statement: its string literals are balanced, no
statement separator occurs outside a literal, and its first token is
SELECT, so no write, update, delete, or schema-altering statement is
ever issued and the interpolated predicate cannot change the statement
kind. -/
theorem all_queries_select (bs : List Chars) (d r : Nat) (hd : d ≤ 90) (hr : r ≤ 50) :
    isSelectStmt brands_sql = true ∧
    isSelectStmt (kpi_sql bs d r) = true ∧
    isSelectStmt (bands_sql bs d r) = true ∧
    isSelectStmt (price_buckets_sql bs d r) = true ∧
    isSelectStmt (top_discounted_sql bs d r) = true ∧
    isSelectStmt (top_rated_sql bs d r) = true :=
  ⟨by decide, kpi_sql_select bs d r, bands_sql_select bs d r,
   price_buckets_sql_select bs d r, top_discounted_sql_select bs d r,
   top_rated_sql_select bs d r⟩

/-- C2 witness: the queries built from a hostile brand string carrying
a quote, statement separators, and a DROP attempt are still single
SELECT statements. -/
theorem all_queries_select_witness :
    isSelectStmt (kpi_sql [inject_brand] 30 45) = true ∧
      isSelectStmt (top_rated_sql [inject_brand] 30 45) = true :=
  ⟨(all_queries_select [inject_brand] 30 45 (by decide) (by decide)).2.1,
   (all_queries_select [inject_brand] 30 45 (by decide) (by decide)).2.2.2.2.2⟩
